import Mathlib

/-!
Shallow embedding of the `typescript-optional` library (the current source:
the abstract class `Optional<T>` with subclasses `PresentOptional<T>` and
`EmptyOptional<T>`, plus the plain `Option` record type used by
`toOption`/`from`).

Modelling conventions:
- A nullable JavaScript value of static type `T` is `JSVal α`: either the
  `null` sentinel, the `undefined` sentinel, or a proper value `val a`.
- Every public constructor of the library (`of`, `ofNonNull`, `ofNullable`,
  `empty`, `from`) guarantees that a `PresentOptional` payload is neither
  `null` nor `undefined`, and `PresentOptional` itself is not exported, so a
  reachable present container always carries a proper value.  The embedding
  bakes this reachability invariant into the type: `Optional α` is
  `present (payload : α)` or `empty`, while the nullable inputs and the
  nullable mapper results keep the full `JSVal` type.
- TypeScript callbacks may have side effects, and several specification
  claims are about how often a callback is invoked.  Methods taking
  callbacks are therefore embedded with explicit state passing: a callback
  is a function `α → σ → β × σ` over an arbitrary state type `σ`, and each
  call site in the source corresponds to exactly one application in the
  embedding.  A method result equal to `(r, s)` for the incoming state `s`,
  for every callback, shows the callback is never invoked; a result equal
  to the callback's own one-step run shows it is invoked exactly once.
- A thrown `TypeError` is an `Except.error` carrying the error record with
  its message; `orElseThrow` propagates the caller-supplied error value of
  an arbitrary type `ε`.
-/

/-- A JavaScript value of static type `T | null | undefined`: the `null`
sentinel, the `undefined` sentinel, or a proper value of type `α`. -/
inductive JSVal (α : Type) where
  | null : JSVal α
  | undefined : JSVal α
  | val : α → JSVal α
deriving DecidableEq, Repr

/-- A JavaScript `TypeError`, identified by its message. -/
structure TypeErr where
  message : String
deriving DecidableEq, Repr

/-- The plain variant record type `Option<T>` of the library:
`{ kind: "present", value: T } | { kind: "empty" }`.  The `kind` field is an
arbitrary string, since `Optional.from` receives records from untyped
callers and switches on `kind` with a default branch.  An absent `value`
field reads as `undefined` in JavaScript, so the record `{ kind: "empty" }`
is embedded with `value := JSVal.undefined`. -/
structure OptionRec (α : Type) where
  kind : String
  value : JSVal α
deriving DecidableEq, Repr

/-- The container: `PresentOptional` holding a payload, or `EmptyOptional`.
The payload type is `α` (not `JSVal α`) because every exported constructor
rejects or normalizes away `null`/`undefined` payloads. -/
inductive Optional (α : Type) where
  | present : α → Optional α
  | empty : Optional α
deriving DecidableEq, Repr

/-- `isPresent()`: `true` on `PresentOptional`, `false` on `EmptyOptional`. -/
def Optional.isPresent : Optional α → Bool
  | .present _ => true
  | .empty => false

/-- `isEmpty()`: defined on the base class as the negation of `isPresent`. -/
def Optional.isEmpty (o : Optional α) : Bool :=
  !o.isPresent

/-- `get()`: the payload if present, otherwise throws
`TypeError("The optional is not present.")`. -/
def Optional.get : Optional α → Except TypeErr α
  | .present payload => .ok payload
  | .empty => .error ⟨"The optional is not present."⟩

/-- `Optional.of(value)`: present wrapper when `value !== null &&
value !== undefined`, otherwise throws a `TypeError`. -/
def Optional.of : JSVal α → Except TypeErr (Optional α)
  | .val a => .ok (.present a)
  | .null => .error ⟨"The passed value was null or undefined."⟩
  | .undefined => .error ⟨"The passed value was null or undefined."⟩

/-- `Optional.ofNonNull(value)`: alias of `Optional.of`. -/
def Optional.ofNonNull (value : JSVal α) : Except TypeErr (Optional α) :=
  Optional.of value

/-- `Optional.ofNullable(nullable)`: present wrapper when the value is
neither `null` nor `undefined`, otherwise the empty container. -/
def Optional.ofNullable : JSVal α → Optional α
  | .val a => .present a
  | .null => .empty
  | .undefined => .empty

/-- `Optional.from(option)`: switches on `option.kind`; `"present"` routes
through the strict `Optional.of option.value`, `"empty"` yields the empty
container, and any other tag throws a `TypeError`.  (`from` is a reserved
word in Lean, hence the name `fromOption`.) -/
def Optional.fromOption (option : OptionRec α) : Except TypeErr (Optional α) :=
  if option.kind = "present" then Optional.of option.value
  else if option.kind = "empty" then .ok .empty
  else .error ⟨"The passed value was not an Option type."⟩

/-- `ifPresent(consumer)`: runs the (stateful, void-returning) consumer on
the payload if present, otherwise does nothing. -/
def Optional.ifPresent (o : Optional α) (consumer : α → σ → σ) (s : σ) : σ :=
  match o with
  | .present payload => consumer payload s
  | .empty => s

/-- `ifPresentOrElse(consumer, emptyAction)`: runs the consumer on the
payload if present, otherwise runs the empty action. -/
def Optional.ifPresentOrElse (o : Optional α) (consumer : α → σ → σ)
    (emptyAction : σ → σ) (s : σ) : σ :=
  match o with
  | .present payload => consumer payload s
  | .empty => emptyAction s

/-- `filter(predicate)`: if present, evaluates the predicate on the payload
and returns `this` when it holds, the empty container otherwise; if empty,
returns `this` without evaluating the predicate. -/
def Optional.filter (o : Optional α) (pred : α → σ → Bool × σ) (s : σ) :
    Optional α × σ :=
  match o with
  | .present payload =>
      let r := pred payload s
      (if r.1 then .present payload else .empty, r.2)
  | .empty => (o, s)

/-- `map(mapper)`: if present, applies the mapper to the payload and wraps
the (possibly `null`/`undefined`) result through the lenient
`Optional.ofNullable`; if empty, returns the empty container without
invoking the mapper. -/
def Optional.map (o : Optional α) (mapper : α → σ → JSVal β × σ) (s : σ) :
    Optional β × σ :=
  match o with
  | .present payload =>
      let r := mapper payload s
      (Optional.ofNullable r.1, r.2)
  | .empty => (.empty, s)

/-- `flatMap(mapper)`: if present, returns exactly `mapper(payload)`; if
empty, returns the empty container without invoking the mapper. -/
def Optional.flatMap (o : Optional α) (mapper : α → σ → Optional β × σ)
    (s : σ) : Optional β × σ :=
  match o with
  | .present payload => mapper payload s
  | .empty => (.empty, s)

/-- `or(supplier)`: `this` if present, otherwise the container produced by
the supplier. -/
def Optional.or (o : Optional α) (supplier : σ → Optional α × σ) (s : σ) :
    Optional α × σ :=
  match o with
  | .present _ => (o, s)
  | .empty => supplier s

/-- `orElse(another)`: the payload if present, otherwise `another`. -/
def Optional.orElse (o : Optional α) (another : α) : α :=
  match o with
  | .present payload => payload
  | .empty => another

/-- `orElseGet(supplier)`: the payload if present; on the empty container
the source evaluates the supplier once and returns
`this.orElse(another())`. -/
def Optional.orElseGet (o : Optional α) (supplier : σ → α × σ) (s : σ) :
    α × σ :=
  match o with
  | .present payload => (payload, s)
  | .empty =>
      let r := supplier s
      ((Optional.empty : Optional α).orElse r.1, r.2)

/-- `orElseThrow(errorSupplier)`: the payload if present; on the empty
container, throws exactly the error value the supplier constructs. -/
def Optional.orElseThrow (o : Optional α) (errorSupplier : σ → ε × σ)
    (s : σ) : Except ε α × σ :=
  match o with
  | .present payload => (.ok payload, s)
  | .empty =>
      let r := errorSupplier s
      (.error r.1, r.2)

/-- `orNull()`: the payload if present, otherwise `null`. -/
def Optional.orNull : Optional α → JSVal α
  | .present payload => .val payload
  | .empty => .null

/-- `orUndefined()`: the payload if present, otherwise `undefined`. -/
def Optional.orUndefined : Optional α → JSVal α
  | .present payload => .val payload
  | .empty => .undefined

/-- `toOption()`: `{ kind: "present", value: payload }` on a present
container, `{ kind: "empty" }` on the empty one. -/
def Optional.toOption : Optional α → OptionRec α
  | .present payload => ⟨"present", .val payload⟩
  | .empty => ⟨"empty", .undefined⟩

/-- The `Cases<T, U>` record for `matches`: a handler for the present state
taking the payload, and a handler for the empty state. -/
structure Cases (σ α β : Type) where
  present : α → σ → β × σ
  empty : σ → β × σ

/-- `matches(cases)`: `cases.present(payload)` on a present container,
`cases.empty()` on the empty one. -/
def Optional.matches (o : Optional α) (cs : Cases σ α β) (s : σ) : β × σ :=
  match o with
  | .present payload => cs.present payload s
  | .empty => cs.empty s

/-- `toJSON(key)`: the bare payload if present, otherwise `null`.  The
`key` argument is unused by both implementations. -/
def Optional.toJSON (o : Optional α) (_key : String) : JSVal α :=
  match o with
  | .present payload => .val payload
  | .empty => .null

/-- The universe of primitive JavaScript values used to discuss
truthiness: booleans, numbers (integers plus a distinguished `NaN`),
and strings.  This suffices for the falsy values `0`, `""`, `false`,
`NaN`. -/
inductive JSPrim where
  | bool : Bool → JSPrim
  | num : Int → JSPrim
  | nan : JSPrim
  | str : String → JSPrim
deriving DecidableEq, Repr

/-- ECMAScript `ToBoolean` (truthiness) on this value universe:
`null`, `undefined`, `false`, `0`, `NaN` and `""` are falsy, everything
else is truthy. -/
def truthy : JSVal JSPrim → Bool
  | .null => false
  | .undefined => false
  | .val (.bool b) => b
  | .val (.num n) => decide (n ≠ 0)
  | .val .nan => false
  | .val (.str s) => decide (s ≠ "")

/-- Claim C1: for a present container with payload `v` and any (stateful)
mapper `f`, `map f` performs exactly one invocation of `f` and wraps its
value result through the lenient null-normalizing path: a `null` or
`undefined` mapper result collapses to the empty container (no failure),
and a proper value `b` yields a present container with payload `b` — so no
present container ever carries `null`/`undefined`.  For the empty
container, `map f` returns the empty container with the state untouched,
for every mapper `f`, so `f` is never invoked. -/
theorem map_lenient_null_normalizing {α β σ : Type}
    (v : α) (f : α → σ → JSVal β × σ) (s : σ) :
    (Optional.present v).map f s =
      ((match (f v s).1 with
        | JSVal.null => Optional.empty
        | JSVal.undefined => Optional.empty
        | JSVal.val b => Optional.present b), (f v s).2)
    ∧ (Optional.empty : Optional α).map f s = (Optional.empty, s) := by
  refine ⟨?_, rfl⟩
  show (Optional.ofNullable (f v s).1, (f v s).2) = _
  cases (f v s).1 <;> rfl

/-- Claim C2: the strict constructors `of` and `ofNonNull` throw a
`TypeError` on `null` and on `undefined`, and on any proper value `v` they
return a present container whose payload is exactly `v`, on which `get()`
returns `v`. -/
theorem of_ofNonNull_strict {α : Type} (v : α) :
    Optional.of (JSVal.null : JSVal α) =
      Except.error ⟨"The passed value was null or undefined."⟩
    ∧ Optional.of (JSVal.undefined : JSVal α) =
      Except.error ⟨"The passed value was null or undefined."⟩
    ∧ Optional.ofNonNull (JSVal.null : JSVal α) =
      Except.error ⟨"The passed value was null or undefined."⟩
    ∧ Optional.ofNonNull (JSVal.undefined : JSVal α) =
      Except.error ⟨"The passed value was null or undefined."⟩
    ∧ Optional.of (JSVal.val v) = Except.ok (Optional.present v)
    ∧ Optional.ofNonNull (JSVal.val v) = Except.ok (Optional.present v)
    ∧ (Optional.present v).get = Except.ok v :=
  ⟨rfl, rfl, rfl, rfl, rfl, rfl, rfl⟩

/-- Claim C3: round-trip isomorphism — for every container `o` (present
with any payload, or empty), `Optional.from (o.toOption())` succeeds and
returns a container in the same state and with the same payload as `o`. -/
theorem fromOption_toOption_roundtrip {α : Type} (o : Optional α) :
    Optional.fromOption o.toOption = Except.ok o := by
  cases o <;> rfl

/-- Claim C4: `flatMap` is the unwrapped monadic bind — on a present
container with payload `v` it is exactly the single run `f v` of the
mapper, with no additional wrapping or re-normalization; on the empty
container it returns the empty container with the state untouched for
every mapper `f`, so `f` is never invoked. -/
theorem flatMap_bind {α β σ : Type}
    (v : α) (f : α → σ → Optional β × σ) (s : σ) :
    (Optional.present v).flatMap f s = f v s
    ∧ (Optional.empty : Optional α).flatMap f s = (Optional.empty, s) :=
  ⟨rfl, rfl⟩

/-- Claim C5: get/orElse duality.  On a present container with payload
`v`: `get()` returns `v`, `orElse d` returns `v` for any fallback `d`, and
`orElseGet sup` returns `v` with the state untouched for every supplier
`sup` (the supplier is never invoked).  On the empty container: `get()`
throws a `TypeError`, `orElse d` returns `d`, and `orElseGet sup` is
exactly the single run `sup s` of the supplier — invoked exactly once,
and only on this empty path. -/
theorem get_orElse_duality {α σ : Type}
    (v d : α) (sup : σ → α × σ) (s : σ) :
    (Optional.present v).get = Except.ok v
    ∧ (Optional.present v).orElse d = v
    ∧ (Optional.present v).orElseGet sup s = (v, s)
    ∧ (Optional.empty : Optional α).get =
        Except.error ⟨"The optional is not present."⟩
    ∧ (Optional.empty : Optional α).orElse d = d
    ∧ (Optional.empty : Optional α).orElseGet sup s = sup s :=
  ⟨rfl, rfl, rfl, rfl, rfl, rfl⟩

/-- Claim C6: `filter` on a present container with payload `v` performs
exactly one run of the predicate and returns the very same container
(the value `present v`, the identity translation of the source's
`return this`) when the predicate yields `true`, and the empty container
when it yields `false`; on the empty container it returns the same empty
container with the state untouched for every predicate `p`, so `p` is
never invoked. -/
theorem filter_spec {α σ : Type}
    (v : α) (p : α → σ → Bool × σ) (s : σ) :
    (Optional.present v).filter p s =
      ((if (p v s).1 then Optional.present v else Optional.empty), (p v s).2)
    ∧ (Optional.empty : Optional α).filter p s = (Optional.empty, s) :=
  ⟨rfl, rfl⟩

/-- Claim C7: `orElseThrow` on the empty container is exactly one run of
the caller-supplied error supplier, raising precisely the error value it
constructs (no interpretation, wrapping or replacement — the error type
`ε` is arbitrary and the raised value is the supplier's own result); on a
present container it returns the payload with the state untouched for
every supplier, so the supplier is never invoked. -/
theorem orElseThrow_propagation {α ε σ : Type}
    (v : α) (es : σ → ε × σ) (s : σ) :
    (Optional.empty : Optional α).orElseThrow es s =
      (Except.error (es s).1, (es s).2)
    ∧ (Optional.present v).orElseThrow es s = (Except.ok v, s) :=
  ⟨rfl, rfl⟩

/-- Claim C8: `matches` invokes exactly one of the two case handlers —
on a present container with payload `v` its result and state effect are
exactly the single run `cs.present v s`, and on the empty container
exactly the single run `cs.empty s`; since each equation holds for every
cases record `cs` and the other handler does not occur in the result, the
other handler is never invoked. -/
theorem matches_exhaustive {α β σ : Type}
    (v : α) (cs : Cases σ α β) (s : σ) :
    (Optional.present v).matches cs s = cs.present v s
    ∧ (Optional.empty : Optional α).matches cs s = cs.empty s :=
  ⟨rfl, rfl⟩

/-- Claim C9: `Optional.from` throws a `TypeError` on a record whose tag
IS the recognized value `"present"` but whose `value` field is `null` or
`undefined` — because `from` routes present-tagged records through the
strict `Optional.of` (the message is the strict constructor's, not the
unrecognized-tag message) — while a present-tagged record with a proper
value and an empty-tagged record succeed, and only an unrecognized tag
produces the not-an-Option error. -/
theorem fromOption_present_tag_strict {α : Type} (v : α) :
    Optional.fromOption (⟨"present", JSVal.null⟩ : OptionRec α) =
      Except.error ⟨"The passed value was null or undefined."⟩
    ∧ Optional.fromOption (⟨"present", JSVal.undefined⟩ : OptionRec α) =
      Except.error ⟨"The passed value was null or undefined."⟩
    ∧ Optional.fromOption ⟨"present", JSVal.val v⟩ =
      Except.ok (Optional.present v)
    ∧ Optional.fromOption (⟨"empty", JSVal.null⟩ : OptionRec α) =
      Except.ok Optional.empty
    ∧ Optional.fromOption ⟨"bogus", JSVal.val v⟩ =
      (Except.error ⟨"The passed value was not an Option type."⟩ :
        Except TypeErr (Optional α)) := by
  refine ⟨?_, ?_, ?_, ?_, ?_⟩ <;> rfl

/-- Claim C10: presence is decided solely by strict comparison against
`null` and `undefined`, never by truthiness — every proper value `p`
(including the falsy values `0`, `""`, `false`, `NaN`, each shown falsy
below) yields a present container with payload `p` under both
`ofNullable` and `of`, while exactly the sentinels `null` and `undefined`
yield the empty container under `ofNullable`. -/
theorem presence_by_null_check_not_truthiness :
    (∀ p : JSPrim,
      Optional.ofNullable (JSVal.val p) = Optional.present p
      ∧ Optional.of (JSVal.val p) = Except.ok (Optional.present p))
    ∧ truthy (JSVal.val (JSPrim.num 0)) = false
    ∧ truthy (JSVal.val (JSPrim.str "")) = false
    ∧ truthy (JSVal.val (JSPrim.bool false)) = false
    ∧ truthy (JSVal.val JSPrim.nan) = false
    ∧ Optional.ofNullable (JSVal.val (JSPrim.num 0)) =
        Optional.present (JSPrim.num 0)
    ∧ Optional.ofNullable (JSVal.val (JSPrim.str "")) =
        Optional.present (JSPrim.str "")
    ∧ Optional.ofNullable (JSVal.val (JSPrim.bool false)) =
        Optional.present (JSPrim.bool false)
    ∧ Optional.ofNullable (JSVal.val JSPrim.nan) =
        Optional.present JSPrim.nan
    ∧ Optional.ofNullable (JSVal.null : JSVal JSPrim) = Optional.empty
    ∧ Optional.ofNullable (JSVal.undefined : JSVal JSPrim) = Optional.empty := by
  refine ⟨fun p => ⟨rfl, rfl⟩, ?_, ?_, rfl, rfl, rfl, ?_, rfl, rfl, rfl, rfl⟩
  · decide
  · decide
  · rfl
